import Mathlib

/-!
Shallow embedding of the response-classification pipeline of the
cosmic-ext-clankers applet: the data model of `src/models/gemini/gemini.rs`
and the functions `convert_to_gemini_request` / `get_gemini_response` of
`src/models/gemini/mod.rs`, together with theorems settling the spec claims.
-/

namespace Clankers

/-- A JSON value, standing in for `serde_json::Value` and used as the wire
representation for the outbound-request serialization round trip. -/
inductive Json where
  | null : Json
  | bool (b : Bool) : Json
  | num (n : Int) : Json
  | str (s : String) : Json
  | arr (xs : List Json) : Json
  | obj (fields : List (String × Json)) : Json

/-- `Chat` from `src/app.rs`: one conversation turn. -/
structure Chat where
  role : String
  content : String
deriving DecidableEq

/-- `GeminiPart` from `gemini.rs` (serialize-only side). -/
structure GeminiPart where
  text : String
deriving DecidableEq

/-- `GeminiContent` from `gemini.rs` (serialize-only side). -/
structure GeminiContent where
  role : String
  parts : List GeminiPart
deriving DecidableEq

/-- `GeminiRequest` from `gemini.rs` (serialize-only side). -/
structure GeminiRequest where
  contents : List GeminiContent
deriving DecidableEq

/-- `convert_to_gemini_request` from `mod.rs`: one content entry per turn,
carrying the turn's role and a single text part with the turn's content. -/
def convert_to_gemini_request (history : List Chat) : GeminiRequest :=
  { contents := history.map fun chat =>
      { role := chat.role, parts := [{ text := chat.content }] } }

/-- Serializer for `GeminiPart` as generated by the serde `Serialize` derive:
a one-field object `{ "text": ... }`. -/
def GeminiPart.toJson (p : GeminiPart) : Json :=
  .obj [("text", .str p.text)]

/-- Serializer for `GeminiContent` as generated by the serde derive. -/
def GeminiContent.toJson (c : GeminiContent) : Json :=
  .obj [("role", .str c.role), ("parts", .arr (c.parts.map GeminiPart.toJson))]

/-- Serializer for `GeminiRequest` as generated by the serde derive:
the `{ contents: [ { role, parts: [ { text } ] } ] }` body shape. -/
def GeminiRequest.toJson (r : GeminiRequest) : Json :=
  .obj [("contents", .arr (r.contents.map GeminiContent.toJson))]

/-- Field lookup in a JSON object (first binding wins, as in serde_json). -/
def Json.getField (j : Json) (k : String) : Option Json :=
  match j with
  | .obj fields => (fields.find? (fun f => f.1 == k)).map (fun f => f.2)
  | _ => none

/-- Deserialize every element of a JSON array, failing if any element
fails, as serde does for a `Vec` field. -/
def traverseOption (f : α → Option β) : List α → Option (List β)
  | [] => some []
  | x :: xs =>
    match f x with
    | some y =>
      match traverseOption f xs with
      | some ys => some (y :: ys)
      | none => none
    | none => none

/-- Structural deserializer inverting `GeminiPart.toJson`. -/
def GeminiPart.fromJson (j : Json) : Option GeminiPart :=
  match j.getField "text" with
  | some (.str s) => some { text := s }
  | _ => none

/-- Structural deserializer inverting `GeminiContent.toJson`. -/
def GeminiContent.fromJson (j : Json) : Option GeminiContent :=
  match j.getField "role", j.getField "parts" with
  | some (.str r), some (.arr ps) =>
    match traverseOption GeminiPart.fromJson ps with
    | some parts => some { role := r, parts := parts }
    | none => none
  | _, _ => none

/-- Structural deserializer inverting `GeminiRequest.toJson`. -/
def GeminiRequest.fromJson (j : Json) : Option GeminiRequest :=
  match j.getField "contents" with
  | some (.arr cs) =>
    match traverseOption GeminiContent.fromJson cs with
    | some contents => some { contents := contents }
    | none => none
  | _ => none

/-- `BlockReason` from `gemini.rs`, with its `#[serde(other)]` fallback. -/
inductive BlockReason where
  | BlockReasonUnspecified | Safety | Other | BlockList | ProhibitedContent
  | ImageSafety | Unknown
deriving DecidableEq

/-- `ModelStage` from `gemini.rs`. -/
inductive ModelStage where
  | ModelStageUnspecified | Experimental | Preview | Stable | Legacy | Retired
  | Unknown
deriving DecidableEq

/-- `FinishReason` from `gemini.rs`, with its `#[serde(other)]` fallback. -/
inductive FinishReason where
  | FinishReasonUnspecified | Stop | MaxTokens | Safety | Recitation | Language
  | Other | Blocklist | ProhibitedContent | Spii | MalformedFunctionCall
  | ImageSafety | ImageProhibitedContent | ImageOther | NoImage | ImageRecitation
  | UnexpectedToolCall | TooManyToolCalls | MissingThoughtSignature | Unknown
deriving DecidableEq

/-- `HarmProbability` from `gemini.rs`. -/
inductive HarmProbability where
  | HarmProbabilityUnspecified | Negligible | Low | Medium | High | Unknown
deriving DecidableEq

/-- `HarmCategory` from `gemini.rs`; the source spells its fallback variant
`Unkown` and misspells two category variants, which we keep verbatim. -/
inductive HarmCategory where
  | HarmCategoryUnspecified | HarmCategoryDerogratory | HarmCategoryToxicity
  | HarmCategoryViolence | HarmCategroySexual | HarmCategoryMedical
  | HarmCategoryDangerous | HarmCategoryHarassment | HarmCategoryHateSpeech
  | HarmCategorySexuallyExplicit | HarmCategoryDangerousContent | Unkown
deriving DecidableEq

/-- `SafetyRating` from `gemini.rs`. -/
structure SafetyRating where
  category : HarmCategory
  probability : HarmProbability
  blocked : Bool
deriving DecidableEq

/-- `Blob` from `gemini.rs`. -/
structure Blob where
  mimeType : String
  data : String
deriving DecidableEq

/-- `FileData` from `gemini.rs`. -/
structure FileData where
  mimeType : String
  fileUri : String
deriving DecidableEq

/-- `Part` from `gemini.rs`: one segment of a candidate's content. -/
structure Part where
  thought : Option Bool
  thoughtSignature : Option String
  text : Option String
  inlineData : Option Blob
  fileData : Option FileData
deriving DecidableEq

/-- `Content` from `gemini.rs`. -/
structure Content where
  parts : List Part
  role : Option String
deriving DecidableEq

/-- `Candidate` from `gemini.rs`; `index` is a `u32` in the source, carried
here as a `Nat` (its value never feeds arithmetic). -/
structure Candidate where
  content : Content
  finishReason : Option FinishReason
  safetyRatings : Option (List SafetyRating)
  index : Nat
  finishMessage : Option String
deriving DecidableEq

/-- `PromptFeedback` from `gemini.rs`. -/
structure PromptFeedback where
  blockReason : Option BlockReason
  safetyRatings : List SafetyRating
deriving DecidableEq

/-- `UsageMetaData` from `gemini.rs`. -/
structure UsageMetaData where
  promptTokenCount : String
  thoughtsTokenCount : String
  totalTokenCount : String
deriving DecidableEq

/-- `ModelStatus` from `gemini.rs`. -/
structure ModelStatus where
  modelStage : ModelStage
  retirementTime : String
  message : String
deriving DecidableEq

/-- `ApiError` from `gemini.rs`; `code` is a `u16`, carried as `Nat`, and
`details` holds raw `serde_json::Value`s. -/
structure ApiError where
  code : Nat
  message : String
  status : String
  details : Option (List Json)

/-- `GeminiResponse` from `gemini.rs`: the deserialized response document. -/
structure GeminiResponse where
  candidates : Option (List Candidate)
  promptFeedback : Option PromptFeedback
  usageMetaDeta : Option UsageMetaData
  modelVersion : Option String
  responseId : Option String
  modelStatus : Option ModelStatus
  error : Option ApiError

/-- `Message` from `mod.rs`: the closed outcome set handed back to the UI. -/
inductive Message where
  | ApiKeyNotSet
  | RequestError (detail : String)
  | ApiResultParsingError (detail : String)
  | ApiError (detail : String)
  | PromptBlocked (detail : String)
  | Response (text : String)
  | EmptyResponse
deriving DecidableEq

/-- The Rust `{:?}` debug rendering of a `HarmCategory`: the variant name. -/
def HarmCategory.debugRepr : HarmCategory → String
  | .HarmCategoryUnspecified => "HarmCategoryUnspecified"
  | .HarmCategoryDerogratory => "HarmCategoryDerogratory"
  | .HarmCategoryToxicity => "HarmCategoryToxicity"
  | .HarmCategoryViolence => "HarmCategoryViolence"
  | .HarmCategroySexual => "HarmCategroySexual"
  | .HarmCategoryMedical => "HarmCategoryMedical"
  | .HarmCategoryDangerous => "HarmCategoryDangerous"
  | .HarmCategoryHarassment => "HarmCategoryHarassment"
  | .HarmCategoryHateSpeech => "HarmCategoryHateSpeech"
  | .HarmCategorySexuallyExplicit => "HarmCategorySexuallyExplicit"
  | .HarmCategoryDangerousContent => "HarmCategoryDangerousContent"
  | .Unkown => "Unkown"

/-- The string built at `mod.rs:66-69` when a blocked rating is found. -/
def promptBlockedMessage (c : HarmCategory) : String :=
  "⚠️ Prompt Blocked by category: " ++ c.debugRepr

/-- The candidate loop of `get_gemini_response` (`mod.rs:63-89`): for each
candidate in order, scan its safety ratings for a blocked one, then look at
the LAST part of its content; fall through to the next candidate when the
parts list is empty or the last part has no text; `EmptyResponse` at the end. -/
def scan_candidates : List Candidate → Message
  | [] => .EmptyResponse
  | c :: rest =>
    match (c.safetyRatings.getD []).find? (fun r => r.blocked) with
    | some r => .PromptBlocked (promptBlockedMessage r.category)
    | none =>
      match c.content.parts.getLast? with
      | some p =>
        match p.text with
        | some t => .Response t
        | none => scan_candidates rest
      | none => scan_candidates rest

/-- `get_gemini_response` from `mod.rs`, with its effects made explicit:
`api_key` is the result of `env::var("GEMINI_API_KEY")`, and `transport` is
the result of the HTTP send (outer `Except`, errors mapped to
`RequestError`) followed by body deserialization (inner `Except`, errors
mapped to `ApiResultParsingError`). -/
def get_gemini_response (api_key : Option String)
    (transport : Except String (Except String GeminiResponse)) : Message :=
  match api_key with
  | none => .ApiKeyNotSet
  | some _ =>
    match transport with
    | .error err => .RequestError err
    | .ok (.error err) => .ApiResultParsingError err
    | .ok (.ok response) =>
      match response.error with
      | some err => .ApiError err.message
      | none => scan_candidates (response.candidates.getD [])

/-- Count of side-effecting steps performed by one invocation:
`sends` counts HTTP sends, `parses` counts body deserializations. -/
structure CallLog where
  sends : Nat
  parses : Nat
deriving DecidableEq

/-- `get_gemini_response` again, instrumented with the order of effects in
the source: the key check precedes the send, the send precedes the parse. -/
def get_gemini_response_traced (api_key : Option String)
    (transport : Except String (Except String GeminiResponse)) :
    Message × CallLog :=
  match api_key with
  | none => (.ApiKeyNotSet, ⟨0, 0⟩)
  | some _ =>
    match transport with
    | .error err => (.RequestError err, ⟨1, 0⟩)
    | .ok (.error err) => (.ApiResultParsingError err, ⟨1, 1⟩)
    | .ok (.ok response) =>
      (match response.error with
       | some err => .ApiError err.message
       | none => scan_candidates (response.candidates.getD []), ⟨1, 1⟩)

/-- The strings the serde derive on `HarmCategory` recognizes: the variant
names under `rename_all = "SCREAMING_SNAKE_CASE"`, source typos included. -/
def harmCategoryWireNames : List String :=
  ["HARM_CATEGORY_UNSPECIFIED", "HARM_CATEGORY_DEROGRATORY",
   "HARM_CATEGORY_TOXICITY", "HARM_CATEGORY_VIOLENCE", "HARM_CATEGROY_SEXUAL",
   "HARM_CATEGORY_MEDICAL", "HARM_CATEGORY_DANGEROUS",
   "HARM_CATEGORY_HARASSMENT", "HARM_CATEGORY_HATE_SPEECH",
   "HARM_CATEGORY_SEXUALLY_EXPLICIT", "HARM_CATEGORY_DANGEROUS_CONTENT"]

/-- Deserializer for `HarmCategory` as expanded from
`#[derive(Deserialize)] #[serde(rename_all = "SCREAMING_SNAKE_CASE")]` with
the `#[serde(other)] Unkown` arm: a match on the wire string whose fallback
arm returns `Unkown` instead of an error. -/
def deserializeHarmCategory (s : String) : Except String HarmCategory :=
  if s = "HARM_CATEGORY_UNSPECIFIED" then .ok .HarmCategoryUnspecified
  else if s = "HARM_CATEGORY_DEROGRATORY" then .ok .HarmCategoryDerogratory
  else if s = "HARM_CATEGORY_TOXICITY" then .ok .HarmCategoryToxicity
  else if s = "HARM_CATEGORY_VIOLENCE" then .ok .HarmCategoryViolence
  else if s = "HARM_CATEGROY_SEXUAL" then .ok .HarmCategroySexual
  else if s = "HARM_CATEGORY_MEDICAL" then .ok .HarmCategoryMedical
  else if s = "HARM_CATEGORY_DANGEROUS" then .ok .HarmCategoryDangerous
  else if s = "HARM_CATEGORY_HARASSMENT" then .ok .HarmCategoryHarassment
  else if s = "HARM_CATEGORY_HATE_SPEECH" then .ok .HarmCategoryHateSpeech
  else if s = "HARM_CATEGORY_SEXUALLY_EXPLICIT" then .ok .HarmCategorySexuallyExplicit
  else if s = "HARM_CATEGORY_DANGEROUS_CONTENT" then .ok .HarmCategoryDangerousContent
  else .ok .Unkown

/-- The strings the serde derive on `FinishReason` recognizes. -/
def finishReasonWireNames : List String :=
  ["FINISH_REASON_UNSPECIFIED", "STOP", "MAX_TOKENS", "SAFETY", "RECITATION",
   "LANGUAGE", "OTHER", "BLOCKLIST", "PROHIBITED_CONTENT", "SPII",
   "MALFORMED_FUNCTION_CALL", "IMAGE_SAFETY", "IMAGE_PROHIBITED_CONTENT",
   "IMAGE_OTHER", "NO_IMAGE", "IMAGE_RECITATION", "UNEXPECTED_TOOL_CALL",
   "TOO_MANY_TOOL_CALLS", "MISSING_THOUGHT_SIGNATURE"]

/-- Deserializer for `FinishReason` as expanded from the serde derive with
its `#[serde(other)] Unknown` arm. -/
def deserializeFinishReason (s : String) : Except String FinishReason :=
  if s = "FINISH_REASON_UNSPECIFIED" then .ok .FinishReasonUnspecified
  else if s = "STOP" then .ok .Stop
  else if s = "MAX_TOKENS" then .ok .MaxTokens
  else if s = "SAFETY" then .ok .Safety
  else if s = "RECITATION" then .ok .Recitation
  else if s = "LANGUAGE" then .ok .Language
  else if s = "OTHER" then .ok .Other
  else if s = "BLOCKLIST" then .ok .Blocklist
  else if s = "PROHIBITED_CONTENT" then .ok .ProhibitedContent
  else if s = "SPII" then .ok .Spii
  else if s = "MALFORMED_FUNCTION_CALL" then .ok .MalformedFunctionCall
  else if s = "IMAGE_SAFETY" then .ok .ImageSafety
  else if s = "IMAGE_PROHIBITED_CONTENT" then .ok .ImageProhibitedContent
  else if s = "IMAGE_OTHER" then .ok .ImageOther
  else if s = "NO_IMAGE" then .ok .NoImage
  else if s = "IMAGE_RECITATION" then .ok .ImageRecitation
  else if s = "UNEXPECTED_TOOL_CALL" then .ok .UnexpectedToolCall
  else if s = "TOO_MANY_TOOL_CALLS" then .ok .TooManyToolCalls
  else if s = "MISSING_THOUGHT_SIGNATURE" then .ok .MissingThoughtSignature
  else .ok .Unknown

/-! Concrete sample values used by witnesses and counterexamples. -/

/-- A part carrying text `t` and nothing else. -/
def textPart (t : String) : Part :=
  { thought := none, thoughtSignature := none, text := some t,
    inlineData := none, fileData := none }

/-- A part with absent text. -/
def textlessPart : Part :=
  { thought := none, thoughtSignature := none, text := none,
    inlineData := none, fileData := none }

/-- A candidate with the given parts and safety ratings and nothing else. -/
def mkCandidate (parts : List Part) (ratings : Option (List SafetyRating)) :
    Candidate :=
  { content := { parts := parts, role := none }, finishReason := none,
    safetyRatings := ratings, index := 0, finishMessage := none }

/-- A response carrying only the given candidates and error. -/
def mkResponse (cands : Option (List Candidate)) (err : Option ApiError) :
    GeminiResponse :=
  { candidates := cands, promptFeedback := none, usageMetaDeta := none,
    modelVersion := none, responseId := none, modelStatus := none,
    error := err }

/-- An unblocked harassment rating. -/
def okRating : SafetyRating :=
  { category := .HarmCategoryHarassment, probability := .Negligible,
    blocked := false }

/-- A blocked harassment rating. -/
def blockedRating : SafetyRating :=
  { category := .HarmCategoryHarassment, probability := .High,
    blocked := true }

/-- A quota-exhausted API error. -/
def quotaErr : ApiError :=
  { code := 429, message := "quota exceeded", status := "RESOURCE_EXHAUSTED",
    details := none }

/-- A response carrying both a top-level error and a valid candidate. -/
def quotaResp : GeminiResponse :=
  mkResponse (some [mkCandidate [textPart "hi"] none]) (some quotaErr)

/-- Candidate 0 of the single-pass counterexample: no blocked ratings,
one part carrying text. -/
def cexCandidate0 : Candidate := mkCandidate [textPart "hello"] none

/-- Candidate 1 of the single-pass counterexample: its second safety rating
is blocked. -/
def cexCandidate1 : Candidate := mkCandidate [] (some [okRating, blockedRating])

/-- The single-pass counterexample response: no top-level error,
candidate 0 has text, candidate 1 has a blocked second rating. -/
def cexResponse : GeminiResponse :=
  mkResponse (some [cexCandidate0, cexCandidate1]) none

/-! Theorems. -/

/-- A rating list in which no rating is blocked has no first blocked rating. -/
theorem find_blocked_eq_none {rs : List SafetyRating}
    (h : ∀ r ∈ rs, r.blocked = false) :
    rs.find? (fun r => r.blocked) = none := by
  rw [List.find?_eq_none]
  intro r hr
  simp [h r hr]

/-- Claim C4: when the API credential is absent, the outcome is exactly the
key-missing variant and no network send (nor body parse) is performed. -/
theorem api_key_missing_short_circuits
    (transport : Except String (Except String GeminiResponse)) :
    get_gemini_response_traced none transport = (.ApiKeyNotSet, ⟨0, 0⟩)
    ∧ get_gemini_response none transport = .ApiKeyNotSet :=
  ⟨rfl, rfl⟩

/-- Claim C5: a transport-level failure yields `RequestError` carrying the
failure description verbatim, after one send and zero body parses. -/
theorem transport_failure_preserved (key detail : String) :
    get_gemini_response_traced (some key) (.error detail)
      = (.RequestError detail, ⟨1, 0⟩)
    ∧ get_gemini_response (some key) (.error detail) = .RequestError detail :=
  ⟨rfl, rfl⟩

/-- Claim C2: a deserialized response whose top-level error is present yields
`ApiError` with that error's message, whatever candidates are present. -/
theorem api_error_preempts (key : String) (resp : GeminiResponse)
    (e : ApiError) (herr : resp.error = some e) :
    get_gemini_response (some key) (.ok (.ok resp)) = .ApiError e.message := by
  simp [get_gemini_response, herr]

/-- Witness for C2: a response carrying both `error.message = "quota
exceeded"` and a valid candidate classifies as that `ApiError`. -/
theorem api_error_preempts_witness :
    get_gemini_response (some "key") (.ok (.ok quotaResp))
      = .ApiError "quota exceeded" :=
  api_error_preempts "key" quotaResp quotaErr rfl

/-- Claim C6: every invocation produces exactly one outcome from the closed
variant set, and a body that fails to deserialize yields the parse-error
variant carrying the parser's message. -/
theorem classification_total (api_key : Option String)
    (transport : Except String (Except String GeminiResponse)) :
    (get_gemini_response api_key transport = .ApiKeyNotSet
      ∨ (∃ d, get_gemini_response api_key transport = .RequestError d)
      ∨ (∃ d, get_gemini_response api_key transport = .ApiResultParsingError d)
      ∨ (∃ d, get_gemini_response api_key transport = .ApiError d)
      ∨ (∃ d, get_gemini_response api_key transport = .PromptBlocked d)
      ∨ (∃ t, get_gemini_response api_key transport = .Response t)
      ∨ get_gemini_response api_key transport = .EmptyResponse)
    ∧ (∀ key msg, api_key = some key → transport = .ok (.error msg) →
        get_gemini_response api_key transport
          = .ApiResultParsingError msg) := by
  constructor
  · cases h : get_gemini_response api_key transport with
    | ApiKeyNotSet => exact .inl rfl
    | RequestError d => exact .inr (.inl ⟨d, rfl⟩)
    | ApiResultParsingError d => exact .inr (.inr (.inl ⟨d, rfl⟩))
    | ApiError d => exact .inr (.inr (.inr (.inl ⟨d, rfl⟩)))
    | PromptBlocked d => exact .inr (.inr (.inr (.inr (.inl ⟨d, rfl⟩))))
    | Response t => exact .inr (.inr (.inr (.inr (.inr (.inl ⟨t, rfl⟩)))))
    | EmptyResponse => exact .inr (.inr (.inr (.inr (.inr (.inr rfl)))))
  · rintro key msg rfl rfl
    rfl

/-- Witness for C6: a malformed body parses to `ApiResultParsingError`. -/
theorem classification_total_witness :
    get_gemini_response (some "key") (.ok (.error "unexpected end of input"))
      = .ApiResultParsingError "unexpected end of input" :=
  (classification_total (some "key")
    (.ok (.error "unexpected end of input"))).2
    "key" "unexpected end of input" rfl rfl

/-- Claim C10: in the single-pass scan, a candidate with no blocked rating
whose non-empty parts list ends in a textless part contributes nothing: the
scan of the whole list equals the scan of the remaining candidates, whatever
the candidate's earlier parts hold. -/
theorem textless_last_part_skips_candidate (c : Candidate)
    (rest : List Candidate) (p : Part)
    (hnoblock : ∀ r ∈ c.safetyRatings.getD [], r.blocked = false)
    (hlast : c.content.parts.getLast? = some p)
    (htext : p.text = none) :
    scan_candidates (c :: rest) = scan_candidates rest := by
  simp [scan_candidates, find_blocked_eq_none hnoblock, hlast, htext]

/-- Witness for C10: a candidate whose earlier part has text but whose last
part is textless is skipped, and the next candidate still yields a block. -/
theorem textless_last_part_skips_candidate_witness :
    scan_candidates
        [mkCandidate [textPart "early", textlessPart] (some [okRating]),
         mkCandidate [] (some [blockedRating])]
      = scan_candidates [mkCandidate [] (some [blockedRating])]
    ∧ scan_candidates [mkCandidate [] (some [blockedRating])]
      = .PromptBlocked (promptBlockedMessage .HarmCategoryHarassment) := by
  refine ⟨textless_last_part_skips_candidate _ _ textlessPart ?_ ?_ ?_, rfl⟩
  · decide
  · rfl
  · rfl

/-- Claim C1 counterexample: in a response with no top-level error where
candidate 0 has no blocked ratings and candidate 1's second rating is
blocked, the outcome is `Response "hello"`, not `PromptBlocked` with that
rating's category — the loop extracts candidate 0's text before it ever
inspects candidate 1's ratings. -/
theorem single_pass_refutes_block_priority :
    get_gemini_response (some "key") (.ok (.ok cexResponse))
      = .Response "hello"
    ∧ Message.Response "hello"
        ≠ .PromptBlocked (promptBlockedMessage blockedRating.category) :=
  ⟨rfl, by decide⟩

/-- Claim C1 amended: the scan is a single pass, candidate-major; within each
candidate the safety ratings are checked before its text, so a later
candidate's blocked rating is reached only when every earlier candidate
yields neither a block nor text. In particular, when candidate 0 has no
blocked rating AND yields no text (empty parts or a textless last part), and
candidate 1's ratings are unblocked-then-blocked, the outcome is
`PromptBlocked` with the second rating's category. -/
theorem blocked_rating_single_pass (key : String) (resp : GeminiResponse)
    (c0 c1 : Candidate) (rest : List Candidate) (r1 r2 : SafetyRating)
    (rs : List SafetyRating)
    (herr : resp.error = none)
    (hcands : resp.candidates = some (c0 :: c1 :: rest))
    (h0block : ∀ r ∈ c0.safetyRatings.getD [], r.blocked = false)
    (h0text : ∀ p, c0.content.parts.getLast? = some p → p.text = none)
    (h1r : c1.safetyRatings = some (r1 :: r2 :: rs))
    (hr1 : r1.blocked = false) (hr2 : r2.blocked = true) :
    get_gemini_response (some key) (.ok (.ok resp))
      = .PromptBlocked (promptBlockedMessage r2.category) := by
  have hskip : scan_candidates (c0 :: c1 :: rest)
      = scan_candidates (c1 :: rest) := by
    cases hl : c0.content.parts.getLast? with
    | none =>
      simp [scan_candidates, find_blocked_eq_none h0block, hl]
    | some p =>
      exact textless_last_part_skips_candidate c0 _ p h0block hl (h0text p hl)
  have hfind : (c1.safetyRatings.getD []).find? (fun r => r.blocked)
      = some r2 := by
    simp [h1r, List.find?, hr1, hr2]
  simp only [get_gemini_response, herr, hcands, Option.getD_some, hskip,
    scan_candidates, hfind]

/-- Witness for the amended C1: candidate 0 unblocked with empty parts,
candidate 1 with an unblocked then a blocked rating, scanned to
`PromptBlocked` with the harassment category of the second rating. -/
theorem blocked_rating_single_pass_witness :
    get_gemini_response (some "key")
        (.ok (.ok (mkResponse
          (some [mkCandidate [] none,
                 mkCandidate [textPart "late"] (some [okRating, blockedRating])])
          none)))
      = .PromptBlocked (promptBlockedMessage .HarmCategoryHarassment) := by
  refine blocked_rating_single_pass "key" _ _ _ [] okRating blockedRating []
    rfl rfl ?_ ?_ rfl rfl rfl
  · decide
  · intro p hp
    simp [mkCandidate] at hp

/-- Claim C3: with no top-level error and no blocked rating anywhere, the
first candidate with a non-empty parts list (all earlier candidates having
empty parts) determines the outcome: if its LAST part carries text, the
outcome is `Response` with that text. -/
theorem response_takes_last_part (key : String) (resp : GeminiResponse)
    (pre rest : List Candidate) (c : Candidate) (p : Part) (t : String)
    (herr : resp.error = none)
    (hcands : resp.candidates = some (pre ++ c :: rest))
    (hnoblock : ∀ cand ∈ pre ++ c :: rest,
      ∀ r ∈ cand.safetyRatings.getD [], r.blocked = false)
    (hpre : ∀ cand ∈ pre, cand.content.parts = [])
    (hlast : c.content.parts.getLast? = some p)
    (htext : p.text = some t) :
    get_gemini_response (some key) (.ok (.ok resp)) = .Response t := by
  have hscan : ∀ l : List Candidate,
      (∀ cand ∈ l ++ c :: rest,
        ∀ r ∈ cand.safetyRatings.getD [], r.blocked = false) →
      (∀ cand ∈ l, cand.content.parts = []) →
      scan_candidates (l ++ c :: rest) = .Response t := by
    intro l
    induction l with
    | nil =>
      intro hnb _
      have hc := find_blocked_eq_none (hnb c (by simp))
      simp [scan_candidates, hc, hlast, htext]
    | cons d l ih =>
      intro hnb hemp
      have hd := find_blocked_eq_none (hnb d (by simp))
      have hde : d.content.parts = [] := hemp d (by simp)
      have : scan_candidates ((d :: l) ++ c :: rest)
          = scan_candidates (l ++ c :: rest) := by
        simp [scan_candidates, hd, hde]
      rw [this]
      exact ih (fun cand hc => hnb cand (by simp [hc])) fun cand hc =>
        hemp cand (by simp [hc])
  simp only [get_gemini_response, herr, hcands, Option.getD_some]
  exact hscan pre hnoblock hpre

/-- Witness for C3: a candidate with parts `[text "reasoning",
text "final answer"]` classifies as `Response "final answer"`. -/
theorem response_takes_last_part_witness :
    get_gemini_response (some "key")
        (.ok (.ok (mkResponse
          (some [mkCandidate [textPart "reasoning", textPart "final answer"]
            none]) none)))
      = .Response "final answer" := by
  refine response_takes_last_part "key" _ [] []
    (mkCandidate [textPart "reasoning", textPart "final answer"] none)
    (textPart "final answer") "final answer" rfl rfl ?_ ?_ rfl rfl
  · decide
  · intro cand hc
    simp at hc

/-- Every candidate list with no blocked rating and no text in any part
scans to `EmptyResponse`. -/
theorem scan_candidates_eq_empty (cs : List Candidate)
    (hnoblock : ∀ c ∈ cs, ∀ r ∈ c.safetyRatings.getD [], r.blocked = false)
    (htextless : ∀ c ∈ cs, ∀ p ∈ c.content.parts, p.text = none) :
    scan_candidates cs = .EmptyResponse := by
  induction cs with
  | nil => rfl
  | cons c rest ih =>
    have h1 := find_blocked_eq_none (hnoblock c (by simp))
    have htail : scan_candidates rest = .EmptyResponse :=
      ih (fun d hd => hnoblock d (by simp [hd])) fun d hd =>
        htextless d (by simp [hd])
    cases hl : c.content.parts.getLast? with
    | none => simp [scan_candidates, h1, hl, htail]
    | some p =>
      have hp : p.text = none :=
        htextless c (by simp) p (List.mem_of_getLast?_eq_some hl)
      simp [scan_candidates, h1, hl, hp, htail]

/-- Claim C7: with no top-level error, no blocked rating and no text in any
candidate's parts (including the case of absent candidates), the outcome is
`EmptyResponse`. -/
theorem empty_response_when_no_usable_text (key : String)
    (resp : GeminiResponse)
    (herr : resp.error = none)
    (hnoblock : ∀ c ∈ resp.candidates.getD [],
      ∀ r ∈ c.safetyRatings.getD [], r.blocked = false)
    (htextless : ∀ c ∈ resp.candidates.getD [],
      ∀ p ∈ c.content.parts, p.text = none) :
    get_gemini_response (some key) (.ok (.ok resp)) = .EmptyResponse := by
  simp only [get_gemini_response, herr]
  exact scan_candidates_eq_empty _ hnoblock htextless

/-- Witness for C7: candidates present but every part textless yields
`EmptyResponse`. -/
theorem empty_response_when_no_usable_text_witness :
    get_gemini_response (some "key")
        (.ok (.ok (mkResponse
          (some [mkCandidate [textlessPart] (some [okRating]),
                 mkCandidate [] none]) none)))
      = .EmptyResponse := by
  refine empty_response_when_no_usable_text "key" _ rfl ?_ ?_
  · decide
  · decide

/-- Claim C8: any wire string outside the known variant-name sets
deserializes successfully to the fallback variant (`Unkown` for
`HarmCategory`, `Unknown` for `FinishReason`) instead of failing. -/
theorem unknown_enum_values_fall_back (s : String)
    (hc : s ∉ harmCategoryWireNames) (hf : s ∉ finishReasonWireNames) :
    deserializeHarmCategory s = .ok .Unkown
    ∧ deserializeFinishReason s = .ok .Unknown := by
  simp only [harmCategoryWireNames, finishReasonWireNames, List.mem_cons,
    List.not_mem_nil, or_false, not_or] at hc hf
  obtain ⟨c1, c2, c3, c4, c5, c6, c7, c8, c9, c10, c11⟩ := hc
  obtain ⟨f1, f2, f3, f4, f5, f6, f7, f8, f9, f10, f11, f12, f13, f14, f15,
    f16, f17, f18, f19⟩ := hf
  constructor
  · simp [deserializeHarmCategory, c1, c2, c3, c4, c5, c6, c7, c8, c9, c10,
      c11]
  · simp [deserializeFinishReason, f1, f2, f3, f4, f5, f6, f7, f8, f9, f10,
      f11, f12, f13, f14, f15, f16, f17, f18, f19]

/-- Witness for C8: a newer category string unknown to the source maps to
the fallback variants of both enums. -/
theorem unknown_enum_values_fall_back_witness :
    deserializeHarmCategory "HARM_CATEGORY_CIVIC_INTEGRITY" = .ok .Unkown
    ∧ deserializeFinishReason "HARM_CATEGORY_CIVIC_INTEGRITY"
        = .ok .Unknown :=
  unknown_enum_values_fall_back "HARM_CATEGORY_CIVIC_INTEGRITY"
    (by decide) (by decide)

/-- Deserializing a serialized part recovers it. -/
theorem gemini_part_roundtrip (p : GeminiPart) :
    GeminiPart.fromJson p.toJson = some p := rfl

/-- Deserializing a serialized part list recovers it. -/
theorem gemini_parts_roundtrip (ps : List GeminiPart) :
    traverseOption GeminiPart.fromJson (ps.map GeminiPart.toJson)
      = some ps := by
  induction ps with
  | nil => rfl
  | cons p ps ih => simp [traverseOption, ih, gemini_part_roundtrip]

/-- Deserializing a serialized content entry recovers it. -/
theorem gemini_content_roundtrip (c : GeminiContent) :
    GeminiContent.fromJson c.toJson = some c := by
  simp [GeminiContent.toJson, GeminiContent.fromJson, Json.getField,
    List.find?, gemini_parts_roundtrip]

/-- Deserializing a serialized content list recovers it. -/
theorem gemini_contents_roundtrip (cs : List GeminiContent) :
    traverseOption GeminiContent.fromJson (cs.map GeminiContent.toJson)
      = some cs := by
  induction cs with
  | nil => rfl
  | cons c cs ih => simp [traverseOption, ih, gemini_content_roundtrip]

/-- Deserializing a serialized request recovers it. -/
theorem gemini_request_roundtrip (r : GeminiRequest) :
    GeminiRequest.fromJson r.toJson = some r := by
  simp [GeminiRequest.toJson, GeminiRequest.fromJson, Json.getField,
    List.find?, gemini_contents_roundtrip]

/-- Claim C9: the outbound request has one content entry per turn; the
serialization round trip recovers the request exactly; and entry `i` carries
turn `i`'s role and a single part with its content text. -/
theorem request_preserves_history (history : List Chat) :
    (convert_to_gemini_request history).contents.length = history.length
    ∧ GeminiRequest.fromJson (convert_to_gemini_request history).toJson
        = some (convert_to_gemini_request history)
    ∧ ∀ (i : Nat) (chat : Chat), history[i]? = some chat →
        (convert_to_gemini_request history).contents[i]?
          = (some { role := chat.role, parts := [{ text := chat.content }] }
              : Option GeminiContent) := by
  refine ⟨by simp [convert_to_gemini_request], gemini_request_roundtrip _, ?_⟩
  intro i chat hi
  simp [convert_to_gemini_request, List.getElem?_map, hi]

/-- Witness for C9: a two-turn history maps to entry 1 carrying the second
turn's role and text. -/
theorem request_preserves_history_witness :
    (convert_to_gemini_request
        [{ role := "user", content := "hi" },
         { role := "model", content := "hello" }]).contents[1]?
      = some { role := "model", parts := [{ text := "hello" }] } :=
  (request_preserves_history
    [{ role := "user", content := "hi" },
     { role := "model", content := "hello" }]).2.2 1
    { role := "model", content := "hello" } rfl

end Clankers
